import Mathlib

/-!
Verification of the client-side persistence and state-synchronization layer
of the image-generator application: the IndexedDB adapter
(`src/utils/imagePersistence.ts`), the Zustand image slice
(`src/store/slices/imageSlice.ts`), and the hydration coordinator
(`hydrateFromIndexedDB`).

The embedding models:
  * `GeneratedImage` records, with `createdAt` as a JavaScript `Date` time
    value (integer milliseconds since the Unix epoch);
  * the platform pair `Date.prototype.toISOString` / `new Date(isoString)`
    as the structured decomposition of a time value into proleptic-Gregorian
    calendar components and back (the rendering of those components as a
    zero-padded digit string is injective, so the string itself is modelled
    by its component tuple);
  * the IndexedDB store as three per-id partitions of stored records, a
    readwrite transaction as a list of operations applied to a scratch copy
    which is committed only if every operation succeeds (an unhandled
    request error or a commit error aborts the transaction and leaves the
    database unchanged), and injectable platform failures (open, commit,
    getAll, clear) as explicit environment flags;
  * the Zustand slice actions as pure functions from slice state to slice
    state, returning alongside the new state the snapshot captured for the
    fire-and-forget persistence write where one is issued;
  * the fire-and-forget writes of one collection as a fold of
    full-snapshot saves in issue order — same-database open requests are
    processed FIFO and IndexedDB starts readwrite transactions with
    overlapping scope strictly in creation order, so two `saveImages`
    calls against the same store commit in the order they were issued —
    and the timing of `Promise.all` as the first rejection time, or the
    maximum settle time when every input resolves.
-/

/-! ## The calendar of `Date.prototype.toISOString`

`civilOfDoe` decomposes a day-of-era (day 0 = March 1 of year 0 of a
400-year Gregorian era) into year-of-era, civil month and day by long
division: century, quadrennium within the century, year within the
quadrennium.  `doeOfCivil` recombines them.  These are extensionally the
standard civil-calendar conversions used by JavaScript engines. -/

/-- Year-of-era, month and day-of-month from a day-of-era `doe < 146097`
(day 0 is March 1 of year 0 of the era; months are civil, 1..12). -/
def civilOfDoe (doe : Nat) : Nat × Nat × Nat :=
  let c := doe / 36524 - doe / 146096
  let dcen := doe - 36524 * c
  let q := dcen / 1461
  let dquad := dcen - 1461 * q
  let yq := dquad / 365 - dquad / 1460
  let yoe := 100 * c + 4 * q + yq
  let doy := dquad - 365 * yq
  let mp := (5 * doy + 2) / 153
  let d := doy - (153 * mp + 2) / 5 + 1
  let m := if mp < 10 then mp + 3 else mp - 9
  (yoe, m, d)

/-- Day-of-era from year-of-era, civil month and day-of-month. -/
def doeOfCivil (yoe m d : Nat) : Nat :=
  let mp := if 2 < m then m - 3 else m + 9
  let doy := (153 * mp + 2) / 5 + d - 1
  365 * yoe + yoe / 4 - yoe / 100 + doy

/-- Proleptic-Gregorian civil date (year, month, day) of a day number
(days since 1970-01-01, possibly negative). -/
def civilFromDays (z : Int) : Int × Nat × Nat :=
  let era := (z + 719468) / 146097
  let doe := ((z + 719468) % 146097).toNat
  match civilOfDoe doe with
  | (yoe, m, d) => ((yoe : Int) + era * 400 + (if m ≤ 2 then 1 else 0), m, d)

/-- Day number (days since 1970-01-01) of a proleptic-Gregorian civil date. -/
def daysFromCivil (y : Int) (m d : Nat) : Int :=
  let ys := if m ≤ 2 then y - 1 else y
  let era := ys / 400
  let yoe := (ys - era * 400).toNat
  era * 146097 + (doeOfCivil yoe m d : Int) - 719468

theorem month_div_le (doy : Nat) (h : doy ≤ 365) :
    (153 * ((5 * doy + 2) / 153) + 2) / 5 ≤ doy ∧ (5 * doy + 2) / 153 ≤ 11 := by
  omega

set_option maxHeartbeats 1000000 in
theorem civilOfDoe_inv (doe : Nat) (h : doe < 146097) (yoe m d : Nat)
    (hcd : civilOfDoe doe = (yoe, m, d)) :
    doeOfCivil yoe m d = doe ∧ yoe ≤ 399 := by
  simp only [civilOfDoe, Prod.mk.injEq] at hcd
  obtain ⟨hy, hm, hd⟩ := hcd
  subst hy; subst hm; subst hd
  set c := doe / 36524 - doe / 146096 with hc
  set dcen := doe - 36524 * c with hdcen
  set q := dcen / 1461 with hq
  set dquad := dcen - 1461 * q with hdquad
  set yq := dquad / 365 - dquad / 1460 with hyq
  set yoe := 100 * c + 4 * q + yq with hyoe
  set doy := dquad - 365 * yq with hdoy
  set mp := (5 * doy + 2) / 153 with hmp
  have hbounds : c ≤ 3 ∧ q ≤ 24 ∧ dquad ≤ 1460 ∧ yq ≤ 3 ∧ doy ≤ 365 ∧
      365 * yq ≤ dquad ∧ 36524 * c ≤ doe ∧ 1461 * q ≤ dcen ∧
      dcen = doe - 36524 * c ∧ dquad = dcen - 1461 * q := by omega
  have h153 := month_div_le doy (by omega)
  rw [← hmp] at h153
  have hdiv : yoe / 4 = 25 * c + q ∧ yoe / 100 = c := by omega
  simp only [doeOfCivil]
  split_ifs with h1 h2 h2 <;> omega

theorem daysFromCivil_civilFromDays (z : Int) :
    daysFromCivil (civilFromDays z).1 (civilFromDays z).2.1 (civilFromDays z).2.2 = z := by
  have hlt : ((z + 719468) % 146097).toNat < 146097 := by omega
  rcases hcd : civilOfDoe (((z + 719468) % 146097).toNat) with ⟨yoe, m, d⟩
  obtain ⟨hinv, hyoe⟩ := civilOfDoe_inv _ hlt yoe m d hcd
  simp only [civilFromDays, hcd, daysFromCivil]
  by_cases hm2 : m ≤ 2
  · simp only [if_pos hm2]
    have h1 : (yoe : Int) + (z + 719468) / 146097 * 400 + 1 - 1 =
        (z + 719468) / 146097 * 400 + (yoe : Int) := by ring
    rw [h1]
    have h2 : ((z + 719468) / 146097 * 400 + (yoe : Int)) / 400 =
        (z + 719468) / 146097 := by omega
    rw [h2]
    have h3 : ((z + 719468) / 146097 * 400 + (yoe : Int)
        - (z + 719468) / 146097 * 400).toNat = yoe := by omega
    rw [h3, hinv]
    omega
  · simp only [if_neg hm2]
    have h1 : (yoe : Int) + (z + 719468) / 146097 * 400 + 0 =
        (z + 719468) / 146097 * 400 + (yoe : Int) := by ring
    rw [h1]
    have h2 : ((z + 719468) / 146097 * 400 + (yoe : Int)) / 400 =
        (z + 719468) / 146097 := by omega
    rw [h2]
    have h3 : ((z + 719468) / 146097 * 400 + (yoe : Int)
        - (z + 719468) / 146097 * 400).toNat = yoe := by omega
    rw [h3, hinv]
    omega

/-! ## ISO-8601 timestamps

`ISODateTime` is the component tuple of the string produced by
`Date.prototype.toISOString` (for example
`2024-02-29T12:34:56.789Z`); rendering the components with fixed-width
zero-padded digit groups is injective, so equality of component tuples is
equality of the strings. -/

/-- The components of an ISO-8601 timestamp string `Y-M-DTh:m:s.msZ`. -/
structure ISODateTime where
  year : Int
  month : Nat
  day : Nat
  hour : Nat
  minute : Nat
  second : Nat
  millisecond : Nat
deriving DecidableEq, Repr

/-- `Date.prototype.toISOString`: decompose a time value (milliseconds since
the Unix epoch) into ISO-8601 components. -/
def toISODateTime (t : Int) : ISODateTime :=
  let ms := (t % 86400000).toNat
  match civilFromDays (t / 86400000) with
  | (y, m, d) =>
    { year := y, month := m, day := d,
      hour := ms / 3600000, minute := ms / 60000 % 60,
      second := ms / 1000 % 60, millisecond := ms % 1000 }

/-- `new Date(isoString)`: the time value denoted by an ISO-8601 timestamp. -/
def parseISODateTime (dt : ISODateTime) : Int :=
  daysFromCivil dt.year dt.month dt.day * 86400000 +
    ((dt.hour * 3600000 + dt.minute * 60000 + dt.second * 1000 + dt.millisecond : Nat) : Int)

theorem parseISODateTime_toISODateTime (t : Int) :
    parseISODateTime (toISODateTime t) = t := by
  have hday := daysFromCivil_civilFromDays (t / 86400000)
  rcases hcd : civilFromDays (t / 86400000) with ⟨y, m, d⟩
  rw [hcd] at hday
  simp only [toISODateTime, parseISODateTime, hcd]
  simp only at hday
  rw [hday]
  omega

/-! ## Data model (`src/types`, `src/utils/imagePersistence.ts`)

The in-memory record keeps `createdAt` as a `Date` time value; the stored
record keeps it as the ISO-8601 string written by `saveImages`. -/

/-- A `GeneratedImage` as held in memory (`createdAt` is a `Date`). -/
structure GeneratedImage where
  id : String
  url : String
  prompt : String
  revisedPrompt : Option String
  createdAt : Int
  quality : Option String
  format : Option String
  transparency : Option Bool
  model : Option String
deriving DecidableEq, Repr

/-- A record as written to IndexedDB by `saveImages` (`createdAt`
serialized to an ISO-8601 string). -/
structure StoredImage where
  id : String
  url : String
  prompt : String
  revisedPrompt : Option String
  createdAt : ISODateTime
  quality : Option String
  format : Option String
  transparency : Option Bool
  model : Option String
deriving DecidableEq, Repr

/-- The per-record serialization performed inside `saveImages`:
`{ ...image, createdAt: image.createdAt.toISOString() }`. -/
def serializeImage (img : GeneratedImage) : StoredImage :=
  { id := img.id, url := img.url, prompt := img.prompt,
    revisedPrompt := img.revisedPrompt,
    createdAt := toISODateTime img.createdAt,
    quality := img.quality, format := img.format,
    transparency := img.transparency, model := img.model }

/-- The per-record deserialization performed inside `loadImages`:
`{ ...image, createdAt: new Date(image.createdAt) }`. -/
def deserializeImage (img : StoredImage) : GeneratedImage :=
  { id := img.id, url := img.url, prompt := img.prompt,
    revisedPrompt := img.revisedPrompt,
    createdAt := parseISODateTime img.createdAt,
    quality := img.quality, format := img.format,
    transparency := img.transparency, model := img.model }

theorem deserializeImage_serializeImage (img : GeneratedImage) :
    deserializeImage (serializeImage img) = img := by
  cases img
  simp [serializeImage, deserializeImage, parseISODateTime_toISODateTime]

/-! ## The durable store adapter (`src/utils/imagePersistence.ts`)

The database has the three object stores of `STORE_NAMES`, each keyed by
record `id`.  A readwrite transaction is modelled as a list of operations
run on a scratch copy of the partition; the scratch copy replaces the
partition only when every operation succeeded and the commit did not fail
(an IndexedDB transaction aborts, leaving the store untouched, when a
request errors unhandled or the commit errors).  Platform failures are
injected through `PersistEnv`:
`openFails` makes `initializeDB` reject, `commitFails` makes the save
transaction's `onerror` fire instead of `oncomplete`, `getAllFails` makes
the `getAll` request of `loadImages` error, and `clearFails` makes the
`clear` request of the named store error. -/

/-- The three object stores of `STORE_NAMES` (wire names `images`,
`edited-images`, `variations`). -/
inductive StoreName where
  | images
  | editedImages
  | variations
deriving DecidableEq, Repr

/-- The durable database: one partition per object store. -/
structure DB where
  images : List StoredImage
  editedImages : List StoredImage
  variations : List StoredImage
deriving DecidableEq, Repr

/-- The contents of one partition. -/
def DB.get (db : DB) : StoreName → List StoredImage
  | .images => db.images
  | .editedImages => db.editedImages
  | .variations => db.variations

/-- Replace the contents of one partition. -/
def DB.set (db : DB) (c : StoreName) (p : List StoredImage) : DB :=
  match c with
  | .images => { db with images := p }
  | .editedImages => { db with editedImages := p }
  | .variations => { db with variations := p }

/-- Errors of the persistence layer. -/
inductive PersistError where
  | storeUnavailable
  | transactionFailed
  | requestFailed
deriving DecidableEq, Repr

/-- Injected platform failures. -/
structure PersistEnv where
  openFails : Bool
  commitFails : Bool
  getAllFails : Bool
  clearFails : StoreName → Bool

/-- One request issued inside a readwrite transaction. -/
inductive TxnOp where
  | clear
  | add (r : StoredImage)
deriving DecidableEq, Repr

/-- Run one request against the scratch copy of a partition.  `store.add`
errors when a record with the same key is already present. -/
def applyOp (p : List StoredImage) : TxnOp → Option (List StoredImage)
  | .clear => some []
  | .add r => if p.any (fun x => x.id == r.id) then none else some (p ++ [r])

/-- Run a transaction's requests in order; `none` when a request errors,
which aborts the whole transaction. -/
def runTxn (p : List StoredImage) : List TxnOp → Option (List StoredImage)
  | [] => some p
  | op :: ops =>
    match applyOp p op with
    | none => none
    | some p' => runTxn p' ops

namespace Persistence

/-- `saveImages(images, storeType)`: open the database, then in one
readwrite transaction clear the partition and add every record with
`createdAt` serialized to an ISO string.  Returns the new database and the
settlement of the returned promise. -/
def saveImages (env : PersistEnv) (db : DB) (images : List GeneratedImage)
    (storeType : StoreName) : DB × Except PersistError Unit :=
  if env.openFails then (db, .error .storeUnavailable)
  else
    match runTxn (db.get storeType)
        (TxnOp.clear :: images.map (fun i => TxnOp.add (serializeImage i))) with
    | none => (db, .error .transactionFailed)
    | some p =>
      if env.commitFails then (db, .error .transactionFailed)
      else (db.set storeType p, .ok ())

/-- `loadImages(storeType)`: `getAll` on the partition, with `createdAt`
parsed back to a `Date`.  A failing `initializeDB` is caught and yields
`[]`; an error of the `getAll` request itself rejects the returned promise
(the `return new Promise(...)` sits inside the `try`, so its rejection is
not routed through the surrounding `catch`). -/
def loadImages (env : PersistEnv) (db : DB) (storeType : StoreName) :
    Except PersistError (List GeneratedImage) :=
  if env.openFails then .ok []
  else if env.getAllFails then .error .requestFailed
  else .ok ((db.get storeType).map deserializeImage)

/-- `clearImages(storeType)`: empty one partition in its own transaction;
open and clear failures are rethrown to the caller. -/
def clearImages (env : PersistEnv) (db : DB) (storeType : StoreName) :
    DB × Except PersistError Unit :=
  if env.openFails then (db, .error .storeUnavailable)
  else if env.clearFails storeType then (db, .error .transactionFailed)
  else (db.set storeType [], .ok ())

/-- `clearAllData()`: clear the three partitions in order, stopping at and
rethrowing the first failure. -/
def clearAllData (env : PersistEnv) (db : DB) : DB × Except PersistError Unit :=
  match clearImages env db .images with
  | (db1, .error e) => (db1, .error e)
  | (db1, .ok _) =>
    match clearImages env db1 .editedImages with
    | (db2, .error e) => (db2, .error e)
    | (db2, .ok _) =>
      clearImages env db2 .variations

end Persistence

/-! ## The image slice (`src/store/slices/imageSlice.ts`)

Each action is modelled by its synchronous `set` update.  The `add*`
actions also return the snapshot they capture and hand to the
fire-and-forget `saveImages` call; the settlement of that call never feeds
back into the state (its rejection is caught and only logged). -/

/-- The transient `operationState` of the slice. -/
structure ImageOperationState where
  isGenerating : Bool
  isEditing : Bool
  isCreatingVariation : Bool
  selectedImageId : Option String
  error : Option String
  isHydrating : Bool
deriving DecidableEq, Repr

/-- The in-memory state of the image slice. -/
structure ImageSliceState where
  images : List GeneratedImage
  editedImages : List GeneratedImage
  variations : List GeneratedImage
  operationState : ImageOperationState
deriving DecidableEq, Repr

/-- The slice's initial state. -/
def initialSliceState : ImageSliceState :=
  { images := [], editedImages := [], variations := [],
    operationState :=
      { isGenerating := false, isEditing := false, isCreatingVariation := false,
        selectedImageId := none, error := none, isHydrating := false } }

namespace Slice

/-- `addImage(image)`: prepend to `images`, clear `error`, and capture the
new collection as the snapshot passed to `saveImages(newImages)`. -/
def addImage (s : ImageSliceState) (image : GeneratedImage) :
    ImageSliceState × List GeneratedImage :=
  let newImages := image :: s.images
  ({ s with images := newImages,
            operationState := { s.operationState with error := none } },
   newImages)

/-- `addEditedImage(image)`. -/
def addEditedImage (s : ImageSliceState) (image : GeneratedImage) :
    ImageSliceState × List GeneratedImage :=
  let newEditedImages := image :: s.editedImages
  ({ s with editedImages := newEditedImages,
            operationState := { s.operationState with error := none } },
   newEditedImages)

/-- `addVariation(image)`. -/
def addVariation (s : ImageSliceState) (image : GeneratedImage) :
    ImageSliceState × List GeneratedImage :=
  let newVariations := image :: s.variations
  ({ s with variations := newVariations,
            operationState := { s.operationState with error := none } },
   newVariations)

/-- `setError(error)`: record the message and force the three operation
flags off (the `isHydrating` flag is not touched). -/
def setError (s : ImageSliceState) (error : Option String) : ImageSliceState :=
  { s with operationState :=
      { s.operationState with
          error := error,
          isGenerating := false,
          isEditing := false,
          isCreatingVariation := false } }

/-- `clearImages()`: empty the in-memory collection; `operationState` is
spread unchanged. -/
def clearImages (s : ImageSliceState) : ImageSliceState :=
  { s with images := [], operationState := s.operationState }

/-- `clearEditedImages()`. -/
def clearEditedImages (s : ImageSliceState) : ImageSliceState :=
  { s with editedImages := [], operationState := s.operationState }

/-- `clearVariations()`. -/
def clearVariations (s : ImageSliceState) : ImageSliceState :=
  { s with variations := [], operationState := s.operationState }

/-- `clearAll()`: empty all three collections and reset `operationState`;
the rejection of the fire-and-forget `clearAllData()` call is caught and
only logged, so it never reaches this state. -/
def clearAll (s : ImageSliceState) : ImageSliceState :=
  { images := [], editedImages := [], variations := [],
    operationState :=
      { isGenerating := false, isEditing := false, isCreatingVariation := false,
        selectedImageId := none, error := none, isHydrating := false } }

/-- `hydrateFromIndexedDB()`: the sequence of states the store passes
through, given the settlements of the three `loadImages` calls.  The first
`set` turns `isHydrating` on; when all three loads resolve, one `set`
writes the three collections and turns `isHydrating` off; when
`Promise.all` rejects, the `catch` turns `isHydrating` off and records the
error message, leaving the collections untouched. -/
def hydrateFromIndexedDB (s : ImageSliceState)
    (r1 r2 r3 : Except PersistError (List GeneratedImage)) :
    List ImageSliceState :=
  let s1 := { s with operationState := { s.operationState with isHydrating := true } }
  match r1, r2, r3 with
  | .ok images, .ok editedImages, .ok variations =>
    [s1,
     { s1 with
         images := images,
         editedImages := editedImages,
         variations := variations,
         operationState := { s1.operationState with isHydrating := false } }]
  | _, _, _ =>
    [s1,
     { s1 with operationState :=
         { s1.operationState with
             isHydrating := false,
             error := some "Failed to load images from storage" } }]

end Slice

/-! ## Commit order of fire-and-forget writes

Each `add*` action fires `saveImages` with the snapshot it captured and
does not await it.  The code adds no write queue of its own, but the
platform supplies the ordering: `indexedDB.open` requests for one
database are processed FIFO, and IndexedDB starts readwrite transactions
with overlapping scope strictly in creation order (the later one waits
for the earlier to finish, even across connections).  Two `saveImages`
calls against the same store therefore commit in the order they were
issued.  `commitWrites` plays a list of pending writes against the
database in that issue order, each committed write being a full
`saveImages` of its snapshot. -/

/-- Apply the pending writes in issue order (the order in which IndexedDB
starts their overlapping readwrite transactions).  Each write is a
full-snapshot `saveImages` call. -/
def commitWrites (env : PersistEnv) (db : DB)
    (writes : List (List GeneratedImage × StoreName)) : DB :=
  writes.foldl
    (fun acc w => (Persistence.saveImages env acc w.1 w.2).1)
    db

/-! ## Settle times of hydration

`Promise.all` resolves once every input has resolved, but rejects at the
first rejection; `hydrateFromIndexedDB` leaves `isHydrating` in the
continuation that runs when `Promise.all` settles.  A `LoadTask` is one
`loadImages` call with the instant at which it settles. -/

/-- One in-flight `loadImages` call: when it settles, and with what. -/
structure LoadTask where
  settleAt : Nat
  result : Except PersistError (List GeneratedImage)

/-- Whether a load resolved (rather than rejected). -/
def LoadTask.resolved (t : LoadTask) : Bool :=
  match t.result with
  | .ok _ => true
  | .error _ => false

/-- The instant at which `Promise.all` of the three hydration loads
settles: the first rejection, or the last resolution when none rejects. -/
def promiseAllSettleAt (t1 t2 t3 : LoadTask) : Nat :=
  match ([t1, t2, t3].filter (fun t => !t.resolved)).map LoadTask.settleAt with
  | [] => max (max t1.settleAt t2.settleAt) t3.settleAt
  | e :: es => (e :: es).foldl min e

/-- The instant at which `hydrateFromIndexedDB` turns `isHydrating` back
off: its continuation runs as soon as `Promise.all` settles. -/
def hydrationExitsAt (t1 t2 t3 : LoadTask) : Nat :=
  promiseAllSettleAt t1 t2 t3

/-! ## Helper lemmas -/

theorem DB.get_set (db : DB) (c : StoreName) (p : List StoredImage) :
    (db.set c p).get c = p := by
  cases c <;> rfl

theorem map_deserialize_serialize (l : List GeneratedImage) :
    (l.map serializeImage).map deserializeImage = l := by
  induction l with
  | nil => rfl
  | cons a rest ih => simp [deserializeImage_serializeImage, ih]

theorem serializeImage_id (img : GeneratedImage) :
    (serializeImage img).id = img.id := rfl

theorem runTxn_adds (imgs : List GeneratedImage) (acc : List StoredImage)
    (hnodup : (imgs.map GeneratedImage.id).Nodup)
    (hdisj : ∀ i ∈ imgs, ∀ x ∈ acc, x.id ≠ i.id) :
    runTxn acc (imgs.map (fun i => TxnOp.add (serializeImage i))) =
      some (acc ++ imgs.map serializeImage) := by
  induction imgs generalizing acc with
  | nil => simp [runTxn]
  | cons a rest ih =>
    have hany : acc.any (fun x => x.id == (serializeImage a).id) = false := by
      rw [List.any_eq_false]
      intro x hx
      simpa [serializeImage_id] using hdisj a (by simp) x hx
    simp only [List.map_cons, runTxn, applyOp, hany, Bool.false_eq_true, if_false]
    rw [ih (acc ++ [serializeImage a])]
    · simp
    · exact (List.nodup_cons.mp hnodup).2
    · intro i hi x hx
      rcases List.mem_append.mp hx with hxa | hxs
      · exact hdisj i (by simp [hi]) x hxa
      · have hxe : x = serializeImage a := by simpa using hxs
        subst hxe
        rw [serializeImage_id]
        have hna : a.id ∉ rest.map GeneratedImage.id := (List.nodup_cons.mp hnodup).1
        intro heq
        exact hna (heq ▸ List.mem_map_of_mem GeneratedImage.id hi)

theorem runTxn_save_ops (imgs : List GeneratedImage) (p : List StoredImage)
    (hnodup : (imgs.map GeneratedImage.id).Nodup) :
    runTxn p (TxnOp.clear :: imgs.map (fun i => TxnOp.add (serializeImage i))) =
      some (imgs.map serializeImage) := by
  simp only [runTxn, applyOp]
  simpa using runTxn_adds imgs [] hnodup (by simp)

theorem saveImages_set (env : PersistEnv) (db : DB) (imgs : List GeneratedImage)
    (c : StoreName) (hnodup : (imgs.map GeneratedImage.id).Nodup)
    (ho : env.openFails = false) (hc : env.commitFails = false) :
    Persistence.saveImages env db imgs c = (db.set c (imgs.map serializeImage), .ok ()) := by
  simp [Persistence.saveImages, ho, hc, runTxn_save_ops imgs (db.get c) hnodup]

/-! ## Concrete fixtures used by witnesses and counterexamples -/

/-- A sample record. -/
def imgA : GeneratedImage :=
  { id := "a", url := "https://x/1.png", prompt := "cat",
    revisedPrompt := none, createdAt := 1700000000000,
    quality := none, format := none, transparency := none, model := none }

/-- A second sample record with a distinct id. -/
def imgB : GeneratedImage :=
  { id := "b", url := "https://x/2.png", prompt := "dog",
    revisedPrompt := some "a dog", createdAt := 1700000001000,
    quality := some "high", format := some "png", transparency := some true,
    model := some "gpt-image-1" }

/-- A third sample record, used as pre-existing store content. -/
def imgC : GeneratedImage :=
  { id := "c", url := "https://x/3.png", prompt := "bird",
    revisedPrompt := none, createdAt := 42,
    quality := none, format := none, transparency := none, model := none }

/-- No injected platform failures. -/
def envOk : PersistEnv :=
  { openFails := false, commitFails := false, getAllFails := false,
    clearFails := fun _ => false }

/-- `initializeDB` rejects (storage unavailable). -/
def envOpenFails : PersistEnv :=
  { envOk with openFails := true }

/-- The save transaction's commit fails. -/
def envCommitFails : PersistEnv :=
  { envOk with commitFails := true }

/-- The `getAll` request of `loadImages` errors. -/
def envGetAllFails : PersistEnv :=
  { envOk with getAllFails := true }

/-- Clearing the `edited-images` store errors; the other stores clear fine. -/
def envClearEditedFails : PersistEnv :=
  { envOk with clearFails := fun c => c == .editedImages }

/-- Clearing the `images` store errors (total failure of `clearAllData`). -/
def envClearImagesFails : PersistEnv :=
  { envOk with clearFails := fun c => c == .images }

/-- An empty database. -/
def emptyDB : DB :=
  { images := [], editedImages := [], variations := [] }

/-- A database with pre-existing content in every partition. -/
def dbFull : DB :=
  { images := [serializeImage imgC], editedImages := [serializeImage imgB],
    variations := [serializeImage imgA] }

/-- A slice state carrying a previously recorded error. -/
def sErr : ImageSliceState :=
  { initialSliceState with
      operationState := { initialSliceState.operationState with error := some "boom" } }

/-- A slice state in the middle of hydration. -/
def sHydrating : ImageSliceState :=
  { initialSliceState with
      operationState := { initialSliceState.operationState with isHydrating := true } }

/-! ## Claims -/

/-- C1: for every collection and every list of records with pairwise
distinct ids, if `saveImages` completes successfully then a subsequent
successful `loadImages` on that collection returns exactly the records
saved — same ids and same field values — regardless of what the partition
contained before the save. -/
theorem saveImages_then_loadImages (env env2 : PersistEnv) (db : DB)
    (imgs : List GeneratedImage) (c : StoreName)
    (hnodup : (imgs.map GeneratedImage.id).Nodup)
    (hok : (Persistence.saveImages env db imgs c).2 = .ok ())
    (ho2 : env2.openFails = false) (hg2 : env2.getAllFails = false) :
    Persistence.loadImages env2 (Persistence.saveImages env db imgs c).1 c = .ok imgs := by
  by_cases ho : env.openFails = true
  · simp [Persistence.saveImages, ho] at hok
  · by_cases hc : env.commitFails = true
    · rw [Bool.not_eq_true] at ho
      simp [Persistence.saveImages, ho, hc,
        runTxn_save_ops imgs (db.get c) hnodup] at hok
    · rw [Bool.not_eq_true] at ho hc
      rw [saveImages_set env db imgs c hnodup ho hc]
      simp only [Persistence.loadImages, ho2, hg2, Bool.false_eq_true, if_false, DB.get_set]
      rw [map_deserialize_serialize]

theorem saveImages_then_loadImages_witness :
    Persistence.loadImages envOk
      (Persistence.saveImages envOk dbFull [imgB, imgA] .images).1 .images =
      .ok [imgB, imgA] :=
  saveImages_then_loadImages envOk envOk dbFull [imgB, imgA] .images
    (by decide) rfl rfl rfl

/-- C2: `saveImages` is atomic — when it settles with an error (any insert
failed or the transaction commit failed), the database is unchanged, so a
subsequent `loadImages` returns exactly what was stored before the save
began, never a partial mixture. -/
theorem saveImages_failure_preserves_db (env : PersistEnv) (db : DB)
    (imgs : List GeneratedImage) (c : StoreName) (e : PersistError)
    (herr : (Persistence.saveImages env db imgs c).2 = .error e) :
    (Persistence.saveImages env db imgs c).1 = db ∧
    ∀ env2 c2, Persistence.loadImages env2 (Persistence.saveImages env db imgs c).1 c2 =
      Persistence.loadImages env2 db c2 := by
  have hdb : (Persistence.saveImages env db imgs c).1 = db := by
    unfold Persistence.saveImages at herr ⊢
    cases hoe : env.openFails with
    | true => simp [hoe]
    | false =>
      simp only [hoe, Bool.false_eq_true, if_false] at herr ⊢
      cases hrun : runTxn (db.get c)
          (TxnOp.clear :: imgs.map fun i => TxnOp.add (serializeImage i)) with
      | none => simp [hrun]
      | some p =>
        simp only [hrun] at herr ⊢
        cases hce : env.commitFails with
        | true => simp [hce]
        | false => simp [hce] at herr
  exact ⟨hdb, fun env2 c2 => by rw [hdb]⟩

theorem saveImages_failure_preserves_db_witness :
    (Persistence.saveImages envCommitFails emptyDB [imgA] .images).1 = emptyDB ∧
    ∀ env2 c2, Persistence.loadImages env2
        (Persistence.saveImages envCommitFails emptyDB [imgA] .images).1 c2 =
      Persistence.loadImages env2 emptyDB c2 :=
  saveImages_failure_preserves_db envCommitFails emptyDB [imgA] .images
    .transactionFailed rfl

/-- C9: for every record whose `createdAt` is a valid `Date` time value,
serializing as `saveImages` does (ISO-8601 string) and deserializing as
`loadImages` does (`new Date(...)`) returns the very same `createdAt` —
exact to the millisecond, hence in particular to second-level precision. -/
theorem createdAt_save_load_roundtrip (img : GeneratedImage)
    (hlo : -8640000000000000 ≤ img.createdAt)
    (hhi : img.createdAt ≤ 8640000000000000) :
    (deserializeImage (serializeImage img)).createdAt = img.createdAt := by
  simp [deserializeImage, serializeImage, parseISODateTime_toISODateTime]

theorem createdAt_save_load_roundtrip_witness :
    (deserializeImage (serializeImage imgA)).createdAt = imgA.createdAt :=
  createdAt_save_load_roundtrip imgA (by decide) (by decide)

/-- C5 (counterexample): `clearImages` spreads `operationState` unchanged,
so a previously recorded error survives the mutation — the claim that
every mutating action leaves `operationState.error` null is false. -/
theorem clearImages_keeps_error :
    (Slice.clearImages sErr).operationState.error ≠ none := by
  decide

/-- C5 (amended): the three `add*` actions and `clearAll` leave
`operationState.error` null immediately after their synchronous update,
but `clearImages`, `clearEditedImages` and `clearVariations` spread
`operationState` unchanged, so a previously recorded error survives
them. -/
theorem mutating_actions_error_field (s : ImageSliceState) (img : GeneratedImage) :
    (Slice.addImage s img).1.operationState.error = none ∧
    (Slice.addEditedImage s img).1.operationState.error = none ∧
    (Slice.addVariation s img).1.operationState.error = none ∧
    (Slice.clearAll s).operationState.error = none ∧
    (Slice.clearImages s).operationState = s.operationState ∧
    (Slice.clearEditedImages s).operationState = s.operationState ∧
    (Slice.clearVariations s).operationState = s.operationState :=
  ⟨rfl, rfl, rfl, rfl, rfl, rfl, rfl⟩

/-- C6 (counterexample): `setError` does not touch `isHydrating`, so with
hydration in flight the flag stays true after a non-null error is set —
the claim that every in-progress boolean including `isHydrating` becomes
false is false. -/
theorem setError_keeps_isHydrating :
    (Slice.setError sHydrating (some "x")).operationState.isHydrating = true := by
  decide

/-- C6 (amended): after `setError e` the error field equals `e` and
`isGenerating`, `isEditing`, `isCreatingVariation` are false, while
`isHydrating` and `selectedImageId` are left unchanged. -/
theorem setError_spec (s : ImageSliceState) (e : Option String) :
    (Slice.setError s e).operationState.error = e ∧
    (Slice.setError s e).operationState.isGenerating = false ∧
    (Slice.setError s e).operationState.isEditing = false ∧
    (Slice.setError s e).operationState.isCreatingVariation = false ∧
    (Slice.setError s e).operationState.isHydrating = s.operationState.isHydrating ∧
    (Slice.setError s e).operationState.selectedImageId = s.operationState.selectedImageId :=
  ⟨rfl, rfl, rfl, rfl, rfl, rfl⟩

/-- C7: when opening the store fails, `loadImages` settles with an empty
list instead of throwing (the open failure is awaited inside the `try`),
and `addImage` still performs its synchronous in-memory prepend — the
record is in the in-memory collection even with persistence unavailable. -/
theorem open_failure_memory_only (env : PersistEnv) (db : DB) (c : StoreName)
    (s : ImageSliceState) (img : GeneratedImage)
    (ho : env.openFails = true) :
    Persistence.loadImages env db c = .ok [] ∧
    (Slice.addImage s img).1.images = img :: s.images := by
  refine ⟨?_, rfl⟩
  simp [Persistence.loadImages, ho]

theorem open_failure_memory_only_witness :
    Persistence.loadImages envOpenFails dbFull .images = .ok [] ∧
    (Slice.addImage sErr imgA).1.images = imgA :: sErr.images :=
  open_failure_memory_only envOpenFails dbFull .images sErr imgA rfl

/-- C10: `setError` resets `isGenerating`, `isEditing` and
`isCreatingVariation` unconditionally — for a null argument (the UI's
error-alert close button calls `setError(null)`) just as for a non-null
message — and records the argument as the new error value. -/
theorem setError_null_resets_flags (s : ImageSliceState) (e : Option String) :
    (Slice.setError s e).operationState.isGenerating = false ∧
    (Slice.setError s e).operationState.isEditing = false ∧
    (Slice.setError s e).operationState.isCreatingVariation = false ∧
    (Slice.setError s none).operationState.error = none ∧
    (Slice.setError s none).operationState.isGenerating = false ∧
    (Slice.setError s none).operationState.isEditing = false ∧
    (Slice.setError s none).operationState.isCreatingVariation = false :=
  ⟨rfl, rfl, rfl, rfl, rfl, rfl, rfl⟩

/-- C3: after `add(a)` then `add(b)` on the same collection the in-memory
collection is `b :: a :: rest` (most-recent-first), and the two
fire-and-forget writes commit in the order their triggering mutations
occurred — IndexedDB processes same-database opens FIFO and starts
overlapping readwrite transactions in creation order — so the durable
partition holds the serialized `a :: rest` after the first commit and the
serialized `b :: a :: rest` (both records, `b` first) after the second
and final commit: the snapshot containing only `a` is only ever committed
before the snapshot containing both, never after it. -/
theorem addImage_commits_inorder (s : ImageSliceState) (a b : GeneratedImage)
    (db : DB) (env : PersistEnv) (c : StoreName)
    (ho : env.openFails = false) (hc : env.commitFails = false)
    (hnodup : ((b :: a :: s.images).map GeneratedImage.id).Nodup) :
    (Slice.addImage (Slice.addImage s a).1 b).1.images = b :: a :: s.images ∧
    (commitWrites env db [((Slice.addImage s a).2, c)]).get c =
      (a :: s.images).map serializeImage ∧
    (commitWrites env db
       [((Slice.addImage s a).2, c),
        ((Slice.addImage (Slice.addImage s a).1 b).2, c)]).get c =
      (b :: a :: s.images).map serializeImage := by
  have htail : ((a :: s.images).map GeneratedImage.id).Nodup :=
    (List.nodup_cons.mp hnodup).2
  refine ⟨rfl, ?_, ?_⟩
  · simp only [commitWrites, List.foldl, Slice.addImage]
    rw [saveImages_set env db (a :: s.images) c htail ho hc, DB.get_set]
  · simp only [commitWrites, List.foldl, Slice.addImage]
    rw [saveImages_set env db (a :: s.images) c htail ho hc,
      saveImages_set env _ (b :: a :: s.images) c hnodup ho hc, DB.get_set]

theorem addImage_commits_inorder_witness :
    (Slice.addImage (Slice.addImage initialSliceState imgA).1 imgB).1.images =
      imgB :: imgA :: initialSliceState.images ∧
    (commitWrites envOk emptyDB
       [((Slice.addImage initialSliceState imgA).2, .images)]).get .images =
      (imgA :: initialSliceState.images).map serializeImage ∧
    (commitWrites envOk emptyDB
       [((Slice.addImage initialSliceState imgA).2, .images),
        ((Slice.addImage (Slice.addImage initialSliceState imgA).1 imgB).2, .images)]).get
        .images =
      (imgB :: imgA :: initialSliceState.images).map serializeImage :=
  addImage_commits_inorder initialSliceState imgA imgB emptyDB envOk .images
    rfl rfl (by decide)

/-- C8 (counterexample): with clearing of `edited-images` failing after
`images` already cleared, `clearAllData` settles with the same generic
`transactionFailed` rejection it produces for a total failure (clearing
`images` itself failing), carrying no indication of which partitions were
emptied; and the slice's `clearAll` catches that rejection and only logs
it — `operationState.error` stays null — so the partial failure is not
surfaced to the caller as a distinct partial-failure condition. -/
theorem clearAll_partial_failure_opaque :
    (Persistence.clearAllData envClearEditedFails dbFull).1.images = [] ∧
    (Persistence.clearAllData envClearEditedFails dbFull).1.editedImages =
      [serializeImage imgB] ∧
    (Persistence.clearAllData envClearEditedFails dbFull).2 =
      .error .transactionFailed ∧
    (Persistence.clearAllData envClearImagesFails dbFull).2 =
      .error .transactionFailed ∧
    (Slice.clearAll sErr).operationState.error = none :=
  ⟨rfl, rfl, rfl, rfl, rfl⟩

/-- C8 (amended): when clearing `images` succeeds and clearing
`edited-images` fails, `clearAllData` stops there and rethrows the
partition's error: the database keeps the partial result (`images`
emptied, the others untouched) and the settlement is the same
`transactionFailed` rejection as for a total failure — distinct from
success but not a distinct partial-failure value; the slice's `clearAll`
empties the in-memory collections regardless and swallows the rejection,
leaving `operationState.error` null. -/
theorem clearAllData_rethrows_first_error (env : PersistEnv) (db : DB)
    (s : ImageSliceState)
    (ho : env.openFails = false) (h1 : env.clearFails .images = false)
    (h2 : env.clearFails .editedImages = true) :
    (Persistence.clearAllData env db).1 = { db with images := [] } ∧
    (Persistence.clearAllData env db).2 = .error .transactionFailed ∧
    (Slice.clearAll s).operationState.error = none ∧
    (Slice.clearAll s).images = [] ∧
    (Slice.clearAll s).editedImages = [] ∧
    (Slice.clearAll s).variations = [] := by
  have hstep : Persistence.clearAllData env db =
      ({ db with images := [] }, .error .transactionFailed) := by
    simp only [Persistence.clearAllData, Persistence.clearImages, ho, h1, h2,
      Bool.false_eq_true, if_false, if_true, DB.set]
  exact ⟨by rw [hstep], by rw [hstep], rfl, rfl, rfl, rfl⟩

theorem clearAllData_rethrows_first_error_witness :
    (Persistence.clearAllData envClearEditedFails dbFull).1 =
      { dbFull with images := [] } ∧
    (Persistence.clearAllData envClearEditedFails dbFull).2 =
      .error .transactionFailed ∧
    (Slice.clearAll sErr).operationState.error = none ∧
    (Slice.clearAll sErr).images = [] ∧
    (Slice.clearAll sErr).editedImages = [] ∧
    (Slice.clearAll sErr).variations = [] :=
  clearAllData_rethrows_first_error envClearEditedFails dbFull sErr rfl rfl rfl

/-- The hydration load of `images` when its `getAll` request errors: the
promise returned by `loadImages` rejects (the rejection bypasses the
`catch`, which only guards the awaited open), settling at instant 0. -/
def tReject : LoadTask :=
  { settleAt := 0, result := Persistence.loadImages envGetAllFails emptyDB .images }

/-- The hydration load of `edited-images`, resolving at instant 5. -/
def tOk5 : LoadTask :=
  { settleAt := 5, result := Persistence.loadImages envOk emptyDB .editedImages }

/-- The hydration load of `variations`, resolving at instant 7. -/
def tOk7 : LoadTask :=
  { settleAt := 7, result := Persistence.loadImages envOk emptyDB .variations }

/-- C4 (counterexample): a `loadImages` call can reject (its `getAll`
request errors and the rejection is not routed through its `catch`), and
`Promise.all` then rejects at that first rejection, so
`hydrateFromIndexedDB` turns `isHydrating` off at instant 0 while the
other two loads are still in flight (they settle at instants 5 and 7) —
the claim that the hydrating state is left only after all three loads have
settled is false. -/
theorem hydration_exits_before_settle :
    tReject.result = .error .requestFailed ∧
    hydrationExitsAt tReject tOk5 tOk7 < tOk5.settleAt ∧
    hydrationExitsAt tReject tOk5 tOk7 < tOk7.settleAt :=
  ⟨rfl, by decide, by decide⟩

/-- C4 (amended): when all three loads resolve, `Promise.all` settles only
once the last of them has settled, and `hydrateFromIndexedDB` then
performs a single state update writing exactly the three loaded
collections and turning `isHydrating` off; in every observable state the
three collections are either all still the pre-hydration ones or all equal
to resolved load results (never a partial mixture), and the last state of
the trace always has `isHydrating` off.  Only when a load rejects can the
hydrating state be left before the remaining loads settle (see the
counterexample). -/
theorem hydrateFromIndexedDB_spec (s : ImageSliceState) (t1 t2 t3 : LoadTask)
    (l1 l2 l3 : List GeneratedImage)
    (h1 : t1.result = .ok l1) (h2 : t2.result = .ok l2) (h3 : t3.result = .ok l3) :
    t1.settleAt ≤ hydrationExitsAt t1 t2 t3 ∧
    t2.settleAt ≤ hydrationExitsAt t1 t2 t3 ∧
    t3.settleAt ≤ hydrationExitsAt t1 t2 t3 ∧
    Slice.hydrateFromIndexedDB s t1.result t2.result t3.result =
      [{ s with operationState := { s.operationState with isHydrating := true } },
       { s with images := l1, editedImages := l2, variations := l3,
                operationState := { s.operationState with isHydrating := false } }] ∧
    (∀ r1 r2 r3 : Except PersistError (List GeneratedImage),
      ∀ st ∈ Slice.hydrateFromIndexedDB s r1 r2 r3,
        (st.images = s.images ∧ st.editedImages = s.editedImages ∧
          st.variations = s.variations) ∨
        (r1 = .ok st.images ∧ r2 = .ok st.editedImages ∧ r3 = .ok st.variations)) ∧
    (∀ r1 r2 r3 st, (Slice.hydrateFromIndexedDB s r1 r2 r3).getLast? = some st →
      st.operationState.isHydrating = false) := by
  have hr1 : t1.resolved = true := by simp [LoadTask.resolved, h1]
  have hr2 : t2.resolved = true := by simp [LoadTask.resolved, h2]
  have hr3 : t3.resolved = true := by simp [LoadTask.resolved, h3]
  have hexit : hydrationExitsAt t1 t2 t3 =
      max (max t1.settleAt t2.settleAt) t3.settleAt := by
    simp [hydrationExitsAt, promiseAllSettleAt, hr1, hr2, hr3]
  refine ⟨by omega, by omega, by omega, ?_, ?_, ?_⟩
  · simp [Slice.hydrateFromIndexedDB, h1, h2, h3]
  · intro r1 r2 r3 st hst
    cases r1 <;> cases r2 <;> cases r3 <;>
      simp only [Slice.hydrateFromIndexedDB, List.mem_cons,
        List.not_mem_nil, or_false] at hst <;>
      rcases hst with h | h <;> subst h <;> simp
  · intro r1 r2 r3 st hst
    cases r1 <;> cases r2 <;> cases r3 <;>
      simp only [Slice.hydrateFromIndexedDB, List.getLast?,
        Option.some.injEq] at hst <;> subst hst <;> rfl

theorem hydrateFromIndexedDB_spec_witness :
    (7 : Nat) ≤ hydrationExitsAt ⟨5, .ok [imgA]⟩ ⟨3, .ok []⟩ ⟨7, .ok []⟩ :=
  (hydrateFromIndexedDB_spec initialSliceState ⟨5, .ok [imgA]⟩ ⟨3, .ok []⟩
    ⟨7, .ok []⟩ [imgA] [] [] rfl rfl rfl).2.2.1
